import Mathlib

/-!
Verification development for the Bunkrr crawler of CyberDropDownloader.

Shallow embedding of:
  * `cyberdrop_dl/utils/dataclasses/url_objects.py` (ScrapeItem, MediaItem)
  * `cyberdrop_dl/scraper/crawlers/bunkrr_crawler.py` (BunkrrCrawler)

yarl `URL` objects are embedded as a record of scheme, optional host and the
tuple of path parts (for an absolute URL the first part is "/", exactly as in
yarl).  Python exceptions are embedded as an error type `PyErr`; a fallible
operation returns `Except PyErr α`.  Collaborators that live in this
repository but outside the embedded files (the folder sanitizer, the filename
resolver, the title builder, the error-handling decorator) are modelled from
the specification and are marked as such in their doc comments.
-/

/-- Python exception kinds that the embedded code can raise or catch. -/

inductive PyErr where
  | NoExtensionFailure
  | TypeError
  | IndexError
  | ValueError
  | AttributeError
deriving DecidableEq, Repr

/-- Embedding of a yarl `URL`: scheme, optional host, and path `parts`.
For an absolute URL with empty path, `parts = ["/"]`; for path `/a/b`,
`parts = ["/", "a", "b"]`, matching yarl's `URL.parts` tuple.  A relative
URL has `host = none` and `parts` without the leading "/". -/

structure URL where
  scheme : String
  host : Option String
  parts : List String
deriving DecidableEq, Repr

/-- yarl `URL.name`: the last path segment, or "" at the root. -/

def URL.name (u : URL) : String :=
  match u.parts.getLast? with
  | none => ""
  | some p => if p = "/" then "" else p

/-- pathlib/yarl `suffix` of a name: the substring from the last dot,
provided that dot is neither the first nor the last character. -/

def nameSuffix (name : String) : String :=
  let cs := name.toList
  match cs.reverse.findIdx? (fun c => c = '.') with
  | none => ""
  | some j =>
    let i := cs.length - 1 - j
    if 0 < i ∧ i < cs.length - 1 then String.mk (cs.drop i) else ""

/-- yarl `URL.suffix` (the extension of the last path segment). -/

def URL.suffix (u : URL) : String := nameSuffix u.name

/-- yarl `URL.with_host`: replace the host, leaving the path unchanged. -/

def URL.with_host (u : URL) (h : String) : URL := { u with host := some h }

/-- Split a character list at every occurrence of `c` (the semantics of
Python `str.split(sep)` with a one-character separator). -/

def listSplit (c : Char) : List Char → List (List Char)
  | [] => [[]]
  | x :: xs =>
    let r := listSplit c xs
    if x = c then [] :: r
    else
      match r with
      | [] => [[x]]
      | y :: ys => (x :: y) :: ys

/-- `str.split(sep)` for a one-character separator, on `String`. -/

def splitOnChar (c : Char) (s : String) : List String :=
  (listSplit c s.toList).map String.mk

/-- `str.lower()` (character-wise lowercasing). -/

def lowerStr (s : String) : String := String.mk (s.toList.map Char.toLower)

/-- String prefix test, via the underlying character lists. -/

def strIsPre (p s : String) : Bool := p.toList.isPrefixOf s.toList

/-- Drop the first `n` characters of a string. -/

def strDrop (s : String) (n : Nat) : String := String.mk (s.toList.drop n)

/-- yarl `URL(string)`: parse "scheme://host/path" into the embedding;
a string without "://" parses as a relative URL (no host). -/

def parseURL (s : String) : URL :=
  let cs := s.toList
  if "https://".toList.isPrefixOf cs then
    let rest := cs.drop 8
    let h := rest.takeWhile (fun c => c ≠ '/')
    let path := rest.drop h.length
    { scheme := "https", host := some (String.mk h),
      parts := if path = [] then ["/"]
               else "/" :: (listSplit '/' (path.drop 1)).map String.mk }
  else if "http://".toList.isPrefixOf cs then
    let rest := cs.drop 7
    let h := rest.takeWhile (fun c => c ≠ '/')
    let path := rest.drop h.length
    { scheme := "http", host := some (String.mk h),
      parts := if path = [] then ["/"]
               else "/" :: (listSplit '/' (path.drop 1)).map String.mk }
  else
    { scheme := "", host := none, parts := (listSplit '/' cs).map String.mk }

/-- Characters illegal in filesystem path segments, removed by the sanitizer. -/

def illegalChars : List Char := ['<', '>', ':', '"', '/', '\\', '|', '?', '*']

/-- Modelled from the spec: `sanitize_folder` (in `cyberdrop_dl/utils/utilities.py`,
outside the embedded sources) "strips/escapes characters illegal in filesystem
path segments, collapses redundant whitespace" and is idempotent.  It is
modelled as removing the illegal characters and trimming surrounding
whitespace. -/

def sanitize_folder (title : String) : String :=
  let kept := title.toList.filter (fun c => ¬ c ∈ illegalChars)
  String.mk (((kept.dropWhile Char.isWhitespace).reverse.dropWhile Char.isWhitespace).reverse)

/-- Embedding of `MediaItem` from `url_objects.py` (the fields set at
construction; the lifecycle-mutable fields are filled by the downloader and
never by the scraper, so they do not appear). -/

structure MediaItem where
  url : URL
  referer : URL
  download_folder : String
  filename : String
  ext : String
  original_filename : String
deriving DecidableEq, Repr

/-- Embedding of `ScrapeItem` from `url_objects.py`. -/

structure ScrapeItem where
  url : URL
  parent_title : String
  part_of_album : Bool := false
  possible_datetime : Option Int := none
  retry : Bool := false
  retry_path : Option String := none
deriving DecidableEq, Repr

/-- Embedding of `ScrapeItem.add_to_parent_title`:
`if not title or self.retry: return`; otherwise sanitize the title and set
`parent_title = (parent_title + "/" + title) if parent_title else title`. -/

def ScrapeItem.add_to_parent_title (s : ScrapeItem) (title : String) : ScrapeItem :=
  if title = "" ∨ s.retry then s
  else
    let t := sanitize_folder title
    { s with parent_title := if s.parent_title ≠ "" then s.parent_title ++ "/" ++ t else t }

/-- Modelled from the spec: `FILE_FORMATS['Images']`, the known image
extension set (the constant lives in `cyberdrop_dl/utils/utilities.py`,
outside the embedded sources). -/

def FILE_FORMATS_Images : List String :=
  [".jpg", ".jpeg", ".png", ".gif", ".webp", ".bmp", ".tiff", ".heif", ".svg"]

/-- Modelled from the spec: `FILE_FORMATS['Videos']`, the known video
extension set (the constant lives in `cyberdrop_dl/utils/utilities.py`,
outside the embedded sources). -/

def FILE_FORMATS_Videos : List String :=
  [".mp4", ".m4v", ".mkv", ".webm", ".mov", ".avi", ".wmv", ".flv", ".mpg", ".mpeg", ".ts"]

/-- `self.primary_base_domain = URL("https://bunkrr.su")`. -/

def primary_base_domain : URL := { scheme := "https", host := some "bunkrr.su", parts := ["/"] }

/-- A string of at most two characters, all digits (the regex `[0-9]{0,2}`). -/

def digits02 (s : String) : Bool := s.toList.length ≤ 2 && s.toList.all Char.isDigit

/-- First alternative of the CDN host regex:
`(?:media-files|cdn|c|pizza|cdn-burger)[0-9]{0,2}`. -/

def cdnAltA (p : String) : Bool :=
  ["media-files", "cdn", "c", "pizza", "cdn-burger"].any
    (fun b => strIsPre b p && digits02 (strDrop p b.toList.length))

/-- Second alternative of the CDN host regex:
`(?:big-taco-|cdn-pizza|cdn-meatballs|cdn-milkshake)[0-9]{0,2}(?:redir)?`. -/

def cdnAltB (p : String) : Bool :=
  ["big-taco-", "cdn-pizza", "cdn-meatballs", "cdn-milkshake"].any
    (fun b =>
      strIsPre b p &&
        (let rest := (strDrop p b.toList.length).toList
         let ds := rest.takeWhile Char.isDigit
         digits02 (String.mk ds) &&
           (rest.drop ds.length = [] || rest.drop ds.length = "redir".toList)))

/-- The full-host match of the regex `cdn_possibilities` from
`get_stream_link`: a CDN node label, then `.bunkr?.`, then a 2-3 letter TLD.
The label, the `bunk`/`bunkr` component and the TLD contain no dots, so the
regex matches exactly when the host splits on "." into three such pieces. -/

def matchCdnHost (h : String) : Bool :=
  match splitOnChar '.' h with
  | [p, m, t] =>
    (cdnAltA p || cdnAltB p) && (m = "bunk" || m = "bunkr") &&
      (2 ≤ t.toList.length && t.toList.length ≤ 3 &&
        t.toList.all (fun c => c.isLower && c.isAlpha))
  | _ => false

/-- `re.sub(r"^cdn(\d*)\.", r"i\1.", host)`: if the host begins with `cdn`,
then digits, then a dot, replace that leading `cdn` with `i`; otherwise the
host is returned unchanged. -/

def subCdnToI (h : String) : String :=
  if strIsPre "cdn" h then
    let rest := (strDrop h 3).toList
    let ds := rest.takeWhile Char.isDigit
    if ('.' :: []).isPrefixOf (rest.drop ds.length) then
      String.mk ('i' :: ds ++ rest.drop ds.length)
    else h
  else h

/-- Embedding of `BunkrrCrawler.get_stream_link`.  `re.match` on a `None`
host raises `TypeError`, so the function is fallible; all other paths are
total.  The extension is `url.suffix.lower()`; `url.parts[-1]` is the last
path part. -/

def get_stream_link (url : URL) : Except PyErr URL :=
  match url.host with
  | none => .error .TypeError
  | some h =>
    if ¬ matchCdnHost h then .ok url
    else
      let ext := lowerStr url.suffix
      if ext = "" then .ok url
      else if ext ∈ FILE_FORMATS_Images then .ok (url.with_host (subCdnToI h))
      else if ext ∈ FILE_FORMATS_Videos then
        .ok { primary_base_domain with parts := ["/", "v", url.parts.getLastD ""] }
      else
        .ok { primary_base_domain with parts := ["/", "d", url.parts.getLastD ""] }

/-- Gregorian leap-year test. -/

def isLeap (y : Nat) : Bool := (y % 4 = 0 && y % 100 ≠ 0) || y % 400 = 0

/-- Number of days in a month of a given year. -/

def daysInMonth (y m : Nat) : Nat :=
  if m = 2 then (if isLeap y then 29 else 28)
  else if m ∈ [4, 6, 9, 11] then 30 else 31

/-- Days from 1970-01-01 to the start of year `y` (for `y ≥ 1970`). -/

def daysBeforeYear (y : Nat) : Nat :=
  (List.range (y - 1970)).foldl (fun acc i => acc + (if isLeap (1970 + i) then 366 else 365)) 0

/-- Days from the start of year `y` to the start of its month `m`. -/

def daysBeforeMonth (y m : Nat) : Nat :=
  (List.range (m - 1)).foldl (fun acc i => acc + daysInMonth y (i + 1)) 0

/-- `calendar.timegm` on a UTC time tuple: seconds since the Unix epoch
(modelled for years from 1970 on). -/

def timegm (y mo d hh mi ss : Nat) : Int :=
  ((daysBeforeYear y + daysBeforeMonth y mo + (d - 1)) * 86400 + hh * 3600 + mi * 60 + ss : Nat)

/-- A numeric field of 1 to `w` digits, as read by `strptime`. -/

def numField (w : Nat) (s : String) : Option Nat :=
  let cs := s.toList
  if 1 ≤ cs.length ∧ cs.length ≤ w ∧ cs.all Char.isDigit then
    some (cs.foldl (fun acc c => acc * 10 + (c.toNat - 48)) 0)
  else none

/-- Embedding of `BunkrrCrawler.parse_datetime`:
`datetime.datetime.strptime(date, "%H:%M:%S %d/%m/%Y")` followed by
`calendar.timegm(date.timetuple())`.  A string that does not match the format
(or an out-of-range field) makes `strptime`/`datetime` raise `ValueError`,
embedded as `none`.  The embedding models years from 1970 on. -/

def parse_datetime (date : String) : Option Int :=
  match splitOnChar ' ' date with
  | [timePart, datePart] =>
    match splitOnChar ':' timePart, splitOnChar '/' datePart with
    | [hs, ms, ss], [ds, mos, ys] =>
      match numField 2 hs, numField 2 ms, numField 2 ss,
            numField 2 ds, numField 2 mos, numField 4 ys with
      | some hh, some mi, some sec, some d, some mo, some y =>
        if hh ≤ 23 ∧ mi ≤ 59 ∧ sec ≤ 59 ∧ 1 ≤ mo ∧ mo ≤ 12 ∧
            1 ≤ d ∧ d ≤ daysInMonth y mo ∧ 1970 ≤ y then
          some (timegm y mo d hh mi sec)
        else none
      | _, _, _, _, _, _ => none
    | _, _ => none
  | _ => none

/-- The `DDOS-Guard` authentication block of the configuration: the three
values read by `set_cookies`.  A value is `none` when absent (`None` in the
config) and may also be the empty string; both are falsy in Python. -/

structure DdosGuardConfig where
  bunkrr_ddg1 : Option String
  bunkrr_ddg2 : Option String
  bunkrr_ddgid : Option String
deriving DecidableEq, Repr

/-- Python truthiness of an optional string: `None` and `""` are falsy. -/

def isTruthy : Option String → Bool
  | none => false
  | some s => s ≠ ""

/-- `self.ddos_guard_domain = URL("https://*.bunkrr.su")`, the scope URL
passed to every `update_cookies` call. -/

def ddos_guard_domain : String := "https://*.bunkrr.su"

/-- One `update_cookies({name: value}, response_url=scope)` call recorded in
the shared cookie store: cookie name, value, scope. -/

structure CookieUpdate where
  name : String
  value : String
  scope : String
deriving DecidableEq, Repr

/-- The per-crawler-instance mutable state touched by `set_cookies`:
the `cookies_set` flag (false at construction), the crawler's configuration,
and the shared cookie store, embedded as the list of applied updates. -/

structure BunkrrState where
  cookies_set : Bool := false
  config : DdosGuardConfig
  jar : List CookieUpdate := []
deriving DecidableEq, Repr

/-- Embedding of `BunkrrCrawler.set_cookies`: return immediately when
`cookies_set` is already true; otherwise apply an `update_cookies` call for
each of the three configured values that is truthy, each guarded by its own
`if`, then set `cookies_set = True`. -/

def set_cookies (st : BunkrrState) : BunkrrState :=
  if st.cookies_set then st
  else
    let st1 := if isTruthy st.config.bunkrr_ddg1 then
        { st with jar := st.jar ++
            [⟨"__ddg1_", st.config.bunkrr_ddg1.getD "", ddos_guard_domain⟩] }
      else st
    let st2 := if isTruthy st.config.bunkrr_ddg2 then
        { st1 with jar := st1.jar ++
            [⟨"__ddg2_", st.config.bunkrr_ddg2.getD "", ddos_guard_domain⟩] }
      else st1
    let st3 := if isTruthy st.config.bunkrr_ddgid then
        { st2 with jar := st2.jar ++
            [⟨"__ddgid_", st.config.bunkrr_ddgid.getD "", ddos_guard_domain⟩] }
      else st2
    { st3 with cookies_set := true }

/-- The updates a priming pass appends: one entry per truthy configured
value, each independent of the other two values. -/

def primingUpdates (c : DdosGuardConfig) : List CookieUpdate :=
  (if isTruthy c.bunkrr_ddg1 then [⟨"__ddg1_", c.bunkrr_ddg1.getD "", ddos_guard_domain⟩] else [])
    ++ (if isTruthy c.bunkrr_ddg2 then [⟨"__ddg2_", c.bunkrr_ddg2.getD "", ddos_guard_domain⟩] else [])
    ++ (if isTruthy c.bunkrr_ddgid then [⟨"__ddgid_", c.bunkrr_ddgid.getD "", ddos_guard_domain⟩] else [])

/-- Decidable equality for `Except` results. -/

instance exceptDecEq {ε α : Type} [DecidableEq ε] [DecidableEq α] :
    DecidableEq (Except ε α) := fun a b =>
  match a, b with
  | .ok x, .ok y =>
    if h : x = y then .isTrue (congrArg Except.ok h)
    else .isFalse (fun hc => h (Except.ok.inj hc))
  | .error x, .error y =>
    if h : x = y then .isTrue (congrArg Except.error h)
    else .isFalse (fun hc => h (Except.error.inj hc))
  | .ok _, .error _ => .isFalse (fun hc => Except.noConfusion hc)
  | .error _, .ok _ => .isFalse (fun hc => Except.noConfusion hc)

/-- Modelled from the spec: `get_filename_and_ext` (in
`cyberdrop_dl/utils/utilities.py`, outside the embedded sources) returns the
filename and extension of a path segment and "fails with `NoExtensionFailure`
when no recognized extension is present". -/

def get_filename_and_ext (filename : String) : Except PyErr (String × String) :=
  if nameSuffix filename = "" then .error .NoExtensionFailure
  else .ok (filename, nameSuffix filename)

/-- Modelled from the spec: the base `Crawler.create_title` (outside the
embedded sources).  The spec describes the album title as the extracted page
title text, merged into `parent_title` by the caller; no further
transformation is specified, so `create_title` returns the text it is given
(the album id argument of the call is kept for the call shape). -/

def create_title (title : String) (albumId : String) : String := title

/-- One album listing entry, as the DOM collaborator presents it: the
`href` of its `grid-images_box-link` anchor and the text of its date
element. -/

structure AlbumEntry where
  href : String
  dateText : String
deriving DecidableEq, Repr

/-- An album page, as the DOM collaborator presents it: the album title text
(after the decorative `span` elements are decomposed and the text stripped)
and the card listing entries. -/

structure AlbumPage where
  titleText : String
  entries : List AlbumEntry
deriving DecidableEq, Repr

/-- The environment a single `fetch` call runs against: the parsed pages the
HTTP/DOM collaborator would return, and the filename/extension resolver
(part of the core's dependency surface, so the handlers take it as a
parameter; the repository's instance is `get_filename_and_ext`). -/

structure Env where
  albumPage : AlbumPage
  videoLinks : List String
  otherLinks : List String
  fne : String → Except PyErr (String × String)

/-- A `handle_file(link, scrape_item, filename, ext)` hand-off to the
download dispatcher. -/

structure FileHandoff where
  link : URL
  item : ScrapeItem
  filename : String
  ext : String
deriving DecidableEq, Repr

/-- What a handler body does before the `error_handling_wrapper` sees it:
the (possibly mutated) item, the `scraper_queue.put` calls, the
`handle_file` calls, and either a normal return or a raised exception. -/

structure HandlerResult where
  item : ScrapeItem
  queued : List ScrapeItem
  handled : List FileHandoff
  outcome : Except PyErr Unit

/-- The album loop's resolution of one entry's link:
`if link.startswith("/"): link = URL("https://" + scrape_item.url.host + link)`,
then `link = URL(link)` and `link = await self.get_stream_link(link)`.
Concatenating a `None` host raises `TypeError`. -/

def resolveHref (host : Option String) (href : String) : Except PyErr URL :=
  if strIsPre "/" href then
    match host with
    | none => .error .TypeError
    | some h => get_stream_link (parseURL ("https://" ++ h ++ href))
  else
    get_stream_link (parseURL href)

/-- The `for card_listing in card_listings` loop of `album`: for each entry
parse its date, resolve its link, and `put` a new ScrapeItem
`(link, parent_title, True, date)` on the scraper queue.  A failing entry
stops the loop with that exception; the items already `put` persist. -/

def albumLoop (host : Option String) (ptitle : String) :
    List AlbumEntry → List ScrapeItem × Except PyErr Unit
  | [] => ([], .ok ())
  | e :: rest =>
    match parse_datetime e.dateText with
    | none => ([], .error .ValueError)
    | some date =>
      match resolveHref host e.href with
      | .error er => ([], .error er)
      | .ok link =>
        let r := albumLoop host ptitle rest
        ({ url := link, parent_title := ptitle, part_of_album := true,
           possible_datetime := some date } :: r.1, r.2)

/-- Embedding of `BunkrrCrawler.album` (the body inside its
`error_handling_wrapper`): read the album id from `url.parts[2]`
(`IndexError` when the path is too short), build the title, merge it into
`parent_title`, then run the listing loop.  `album` calls `handle_file`
nowhere, so `handled = []`. -/

def album (s : ScrapeItem) (page : AlbumPage) : HandlerResult :=
  match s.url.parts.get? 2 with
  | none => ⟨s, [], [], .error .IndexError⟩
  | some albumId =>
    let title := create_title page.titleText albumId
    let s1 := s.add_to_parent_title title
    let r := albumLoop s1.url.host s1.parent_title page.entries
    ⟨s1, r.1, [], r.2⟩

/-- Embedding of `BunkrrCrawler.video` (the body inside its
`error_handling_wrapper`): take the last `bg-blue-500` anchor (`IndexError`
when there is none), derive filename and extension from the link's name,
falling back to the page URL's name when — and only when — the first attempt
raises `NoExtensionFailure`, then `handle_file` the link. -/

def video (s : ScrapeItem) (env : Env) : HandlerResult :=
  match env.videoLinks.getLast? with
  | none => ⟨s, [], [], .error .IndexError⟩
  | some href =>
    match env.fne (parseURL href).name with
    | .ok (f, e) => ⟨s, [], [⟨parseURL href, s, f, e⟩], .ok ()⟩
    | .error .NoExtensionFailure =>
      match env.fne s.url.name with
      | .ok (f, e) => ⟨s, [], [⟨parseURL href, s, f, e⟩], .ok ()⟩
      | .error e2 => ⟨s, [], [], .error e2⟩
    | .error er => ⟨s, [], [], .error er⟩

/-- Embedding of `BunkrrCrawler.other`: identical to `video` except that the
direct link is the last `text-white inline-flex` anchor. -/

def other (s : ScrapeItem) (env : Env) : HandlerResult :=
  match env.otherLinks.getLast? with
  | none => ⟨s, [], [], .error .IndexError⟩
  | some href =>
    match env.fne (parseURL href).name with
    | .ok (f, e) => ⟨s, [], [⟨parseURL href, s, f, e⟩], .ok ()⟩
    | .error .NoExtensionFailure =>
      match env.fne s.url.name with
      | .ok (f, e) => ⟨s, [], [⟨parseURL href, s, f, e⟩], .ok ()⟩
      | .error e2 => ⟨s, [], [], .error e2⟩
    | .error er => ⟨s, [], [], .error er⟩

/-- A handler result after `error_handling_wrapper`: the wrapper never
re-raises; a raised exception becomes a logged failure carrying the item's
URL. -/

structure WrappedResult where
  item : ScrapeItem
  queued : List ScrapeItem
  handled : List FileHandoff
  failed : Option (URL × PyErr)

/-- Modelled from the spec: `error_handling_wrapper` (in
`cyberdrop_dl/utils/utilities.py`, outside the embedded sources) catches any
exception from the wrapped handler, "logs the failure (with the offending URL
and origin) and marks the ScrapeItem failed without propagating". -/

def error_handling_wrapper (r : HandlerResult) : WrappedResult :=
  match r.outcome with
  | .ok _ => ⟨r.item, r.queued, r.handled, none⟩
  | .error e => ⟨r.item, r.queued, r.handled, some (r.item.url, e)⟩

/-- One `fetch` call's observable behaviour: final crawler state, the item
(mutated in place), queue puts, `handle_file` calls, the number of
`scraping_progress.add_task` and `remove_task` calls, the failure the
wrapper logged (if any), and whether `fetch` itself returned or raised. -/

structure FetchResult where
  state : BunkrrState
  item : ScrapeItem
  queued : List ScrapeItem
  handled : List FileHandoff
  added : Nat
  removed : Nat
  failed : Option (URL × PyErr)
  outcome : Except PyErr Unit

/-- Embedding of `BunkrrCrawler.fetch`: `add_task` on entry; reassign
`scrape_item.url = get_stream_link(scrape_item.url)` (an exception here
propagates out of `fetch` — there is no wrapper around `fetch` itself, and
`remove_task` is not reached); `set_cookies`; dispatch on the path parts to
the wrapped `album`/`video`/`other`; `remove_task` at the end. -/

def fetch (st : BunkrrState) (s : ScrapeItem) (env : Env) : FetchResult :=
  match get_stream_link s.url with
  | .error e =>
    { state := st, item := s, queued := [], handled := [],
      added := 1, removed := 0, failed := none, outcome := .error e }
  | .ok u =>
    let s1 := { s with url := u }
    let st1 := set_cookies st
    let w :=
      if "a" ∈ u.parts then error_handling_wrapper (album s1 env.albumPage)
      else if "v" ∈ u.parts then error_handling_wrapper (video s1 env)
      else error_handling_wrapper (other s1 env)
    { state := st1, item := w.item, queued := w.queued, handled := w.handled,
      added := 1, removed := 1, failed := w.failed, outcome := .ok () }

/-- Configuration with no cookie values, for concrete runs. -/

def cfg0 : DdosGuardConfig := ⟨none, none, none⟩

/-- A fresh crawler state (`cookies_set = false`). -/

def st0 : BunkrrState := { config := cfg0 }

/-- An environment whose pages are empty and whose filename resolver is the
repository's `get_filename_and_ext`. -/

def env0 : Env :=
  { albumPage := ⟨"", []⟩, videoLinks := [], otherLinks := [],
    fne := get_filename_and_ext }

/-- A ScrapeItem whose URL is relative (no host), as a caller may enqueue. -/

def relItem : ScrapeItem :=
  { url := { scheme := "", host := none, parts := ["rel"] }, parent_title := "" }

/-- An item with a well-formed https URL (dispatching to the video handler). -/

def okItem : ScrapeItem :=
  { url := parseURL "https://bunkrr.su/v/clip", parent_title := "" }

/-- A concrete video-page item used to witness the frame conditions. -/

def frameItemW : ScrapeItem :=
  { url := parseURL "https://media-files.bunkr.ru/clip.mp4",
    parent_title := "T", possible_datetime := some 7 }

/-- Whether an `Except` result is a success. -/

def exOk {α : Type} : Except PyErr α → Bool
  | .ok _ => true
  | .error _ => false

/-- The ScrapeItem the album loop enqueues for one entry (meaningful when the
entry's date parses and its link resolves). -/

def entryChild (host : Option String) (pt : String) (e : AlbumEntry) : ScrapeItem :=
  { url := match resolveHref host e.href with
           | .ok u => u
           | .error _ => parseURL e.href,
    parent_title := pt, part_of_album := true,
    possible_datetime := parse_datetime e.dateText }

/-- A concrete album item (URL `https://bunkrr.su/a/album1`). -/

def albumItemW : ScrapeItem :=
  { url := parseURL "https://bunkrr.su/a/album1", parent_title := "Root" }

/-- A concrete stub album page with three listing entries (two images, one
video), each with a date element. -/

def albumPageW : AlbumPage :=
  { titleText := "My Album",
    entries := [{ href := "https://cdn.bunkr.ru/pic1.jpg", dateText := "14:30:00 05/03/2021" },
                { href := "/files/pic2.png", dateText := "15:00:00 06/03/2021" },
                { href := "https://media-files12.bunkr.ru/vid.mp4",
                  dateText := "16:45:10 07/03/2021" }] }

/-- Environment for the fallback witness: the video page's direct link has
no extension in its name; the page URL does. -/

def fallbackEnvW : Env :=
  { albumPage := ⟨"", []⟩,
    videoLinks := ["https://bunkrr.su/v/clip"],
    otherLinks := ["https://bunkrr.su/d/file"],
    fne := get_filename_and_ext }

/-- Environment whose filename resolver fails with an error that is not
`NoExtensionFailure`. -/

def errEnvW : Env := { fallbackEnvW with fne := fun x => .error .TypeError }

/-- Item whose page URL name carries the extension used by the fallback. -/

def fallbackItemW : ScrapeItem :=
  { url := parseURL "https://bunkrr.su/v/clip.mp4", parent_title := "" }

/-! ## Theorems -/

/-- Claim C3: `add_to_parent_title` leaves `parent_title` unchanged on a retry
item and on an empty title; otherwise the new `parent_title` is the old one
followed by "/" and the sanitized title when the old one is non-empty, and the
sanitized title alone when the old one is empty. -/

theorem add_to_parent_title_spec (s : ScrapeItem) (t : String) :
    (s.retry = true → (s.add_to_parent_title t).parent_title = s.parent_title) ∧
    (t = "" → (s.add_to_parent_title t).parent_title = s.parent_title) ∧
    (s.retry = false → t ≠ "" →
      (s.add_to_parent_title t).parent_title =
        (if s.parent_title ≠ "" then s.parent_title ++ "/" ++ sanitize_folder t
         else sanitize_folder t)) := by
  refine ⟨?_, ?_, ?_⟩
  · intro hr
    simp [ScrapeItem.add_to_parent_title, hr]
  · intro ht
    simp [ScrapeItem.add_to_parent_title, ht]
  · intro hr ht
    simp [ScrapeItem.add_to_parent_title, hr, ht]

/-- Claim C3 witness: concrete evaluations of the three cases. -/

theorem add_to_parent_title_spec_witness :
    (({ url := parseURL "https://bunkrr.su/a/x", parent_title := "Old",
        retry := true } : ScrapeItem).add_to_parent_title "New").parent_title = "Old" ∧
    (({ url := parseURL "https://bunkrr.su/a/x", parent_title := "Old" } :
        ScrapeItem).add_to_parent_title "").parent_title = "Old" ∧
    (({ url := parseURL "https://bunkrr.su/a/x", parent_title := "Old" } :
        ScrapeItem).add_to_parent_title "Ti:tle").parent_title = "Old/Title" := by
  refine ⟨?_, ?_, ?_⟩
  · exact (add_to_parent_title_spec _ "New").1 rfl
  · exact (add_to_parent_title_spec _ "").2.1 rfl
  · have h := (add_to_parent_title_spec
      ({ url := parseURL "https://bunkrr.su/a/x", parent_title := "Old" } : ScrapeItem)
      "Ti:tle").2.2 rfl (by decide)
    rw [h]
    decide

/-- Claim C4: `get_stream_link` is a pure function of its URL; on a URL with a
host it never fails, and: unmatched host gives the identity; matched host with
no extension gives the identity; an image extension rewrites only the host
(by the `cdn` to `i` substitution), keeping the path; a video extension gives
the primary domain with path `/v/<last part>`; any other extension gives the
primary domain with path `/d/<last part>`. -/

theorem get_stream_link_spec (url : URL) (h : String) (hh : url.host = some h) :
    (¬ matchCdnHost h → get_stream_link url = .ok url) ∧
    (matchCdnHost h → lowerStr url.suffix = "" → get_stream_link url = .ok url) ∧
    (matchCdnHost h → lowerStr url.suffix ∈ FILE_FORMATS_Images →
      get_stream_link url = .ok { url with host := some (subCdnToI h) }) ∧
    (matchCdnHost h → lowerStr url.suffix ∈ FILE_FORMATS_Videos →
      get_stream_link url =
        .ok { scheme := "https", host := some "bunkrr.su",
              parts := ["/", "v", url.parts.getLastD ""] }) ∧
    (matchCdnHost h → lowerStr url.suffix ≠ "" →
      lowerStr url.suffix ∉ FILE_FORMATS_Images → lowerStr url.suffix ∉ FILE_FORMATS_Videos →
      get_stream_link url =
        .ok { scheme := "https", host := some "bunkrr.su",
              parts := ["/", "d", url.parts.getLastD ""] }) := by
  refine ⟨?_, ?_, ?_, ?_, ?_⟩
  · intro hm
    simp [get_stream_link, hh, hm]
  · intro hm he
    simp [get_stream_link, hh, hm, he]
  · intro hm hi
    have hne : lowerStr url.suffix ≠ "" := by
      intro h0
      rw [h0] at hi
      simp [FILE_FORMATS_Images] at hi
    simp [get_stream_link, hh, hm, hne, hi, URL.with_host]
  · intro hm hv
    have hne : lowerStr url.suffix ≠ "" := by
      intro h0
      rw [h0] at hv
      simp [FILE_FORMATS_Videos] at hv
    have hni : lowerStr url.suffix ∉ FILE_FORMATS_Images := by
      intro hi
      rw [FILE_FORMATS_Videos] at hv
      rw [FILE_FORMATS_Images] at hi
      simp only [List.mem_cons, List.not_mem_nil, or_false] at hv hi
      rcases hv with hv | hv | hv | hv | hv | hv | hv | hv | hv | hv | hv <;>
        rw [hv] at hi <;> simp at hi
    simp [get_stream_link, hh, hm, hne, hni, hv, primary_base_domain]
  · intro hm hne hni hnv
    simp [get_stream_link, hh, hm, hne, hni, hnv, primary_base_domain]

/-- Claim C4 witness: concrete URLs exercising every case: an unmatched host,
a matched host without extension, an image, a video, and an archive. -/

theorem get_stream_link_spec_witness :
    get_stream_link (parseURL "https://bunkrr.su/a/abc") =
      .ok (parseURL "https://bunkrr.su/a/abc") ∧
    get_stream_link (parseURL "https://cdn12.bunkr.ru/folder") =
      .ok (parseURL "https://cdn12.bunkr.ru/folder") ∧
    get_stream_link (parseURL "https://cdn12.bunkr.ru/pic.JPG") =
      .ok (parseURL "https://i12.bunkr.ru/pic.JPG") ∧
    get_stream_link (parseURL "https://media-files.bunkr.ru/clip.mp4") =
      .ok (parseURL "https://bunkrr.su/v/clip.mp4") ∧
    get_stream_link (parseURL "https://big-taco-1redir.bunkr.ru/file.zip") =
      .ok (parseURL "https://bunkrr.su/d/file.zip") := by
  refine ⟨?_, ?_, ?_, ?_, ?_⟩
  · have h := (get_stream_link_spec (parseURL "https://bunkrr.su/a/abc") "bunkrr.su"
      (by decide)).1 (by decide)
    rw [h]
  · have h := (get_stream_link_spec (parseURL "https://cdn12.bunkr.ru/folder") "cdn12.bunkr.ru"
      (by decide)).2.1 (by decide) (by decide)
    rw [h]
  · have h := (get_stream_link_spec (parseURL "https://cdn12.bunkr.ru/pic.JPG") "cdn12.bunkr.ru"
      (by decide)).2.2.1 (by decide) (by decide)
    rw [h]
    exact congrArg Except.ok (by decide)
  · have h := (get_stream_link_spec (parseURL "https://media-files.bunkr.ru/clip.mp4")
      "media-files.bunkr.ru" (by decide)).2.2.2.1 (by decide) (by decide)
    rw [h]
    exact congrArg Except.ok (by decide)
  · have h := (get_stream_link_spec (parseURL "https://big-taco-1redir.bunkr.ru/file.zip")
      "big-taco-1redir.bunkr.ru" (by decide)).2.2.2.2 (by decide) (by decide) (by decide)
      (by decide)
    rw [h]
    exact congrArg Except.ok (by decide)

/-- Claim C10: on a URL with no host (e.g. a relative URL), `get_stream_link`
fails with a `TypeError` (from `re.match` on `None`) rather than returning the
input unchanged; the identity-on-unmatched-host behaviour needs a host. -/

theorem get_stream_link_no_host (url : URL) (hh : url.host = none) :
    get_stream_link url = .error .TypeError := by
  simp [get_stream_link, hh]

/-- Claim C10 witness: a relative URL makes `get_stream_link` raise. -/

theorem get_stream_link_no_host_witness :
    get_stream_link (parseURL "a/rel.jpg") = .error .TypeError :=
  get_stream_link_no_host (parseURL "a/rel.jpg") (by decide)

/-- Claim C7: `parse_datetime` reads `HH:MM:SS DD/MM/YYYY` as a UTC time and
returns the Unix epoch; `"14:30:00 05/03/2021"` gives the epoch of
2021-03-05T14:30:00Z, namely 1614954600, and the epoch origin itself gives 0. -/

theorem parse_datetime_spec :
    parse_datetime "14:30:00 05/03/2021" = some 1614954600 ∧
    parse_datetime "00:00:00 01/01/1970" = some 0 := by
  constructor
  · decide
  · decide

/-- Claim C6: `set_cookies` has at-most-once effect per crawler instance —
once `cookies_set` holds, every further call is a no-op, so a second call
after any first call changes nothing; and within the one priming pass each of
the three configured values is applied exactly when it is truthy,
independently of the other two, so a missing or empty value is skipped
without preventing the rest (the pass appends `primingUpdates`). -/

theorem set_cookies_spec (st : BunkrrState) :
    (st.cookies_set = true → set_cookies st = st) ∧
    (set_cookies st).cookies_set = true ∧
    set_cookies (set_cookies st) = set_cookies st ∧
    (st.cookies_set = false →
      (set_cookies st).jar = st.jar ++ primingUpdates st.config) := by
  have noop : ∀ s : BunkrrState, s.cookies_set = true → set_cookies s = s := by
    intro s h
    simp [set_cookies, h]
  have hset : (set_cookies st).cookies_set = true := by
    by_cases h : st.cookies_set
    · rw [noop st h]
      exact h
    · simp only [set_cookies, h, if_false, Bool.false_eq_true]
  refine ⟨noop st, hset, noop _ hset, ?_⟩
  intro h
  simp only [set_cookies, h, if_false, Bool.false_eq_true, primingUpdates]
  by_cases h1 : isTruthy st.config.bunkrr_ddg1 <;>
    by_cases h2 : isTruthy st.config.bunkrr_ddg2 <;>
    by_cases h3 : isTruthy st.config.bunkrr_ddgid <;>
    simp [h1, h2, h3]

/-- Claim C6 witness: an instance with `ddg1` missing and `ddg2` empty still
applies `ddgid`, and a repeated call changes nothing. -/

theorem set_cookies_spec_witness :
    (set_cookies { config := ⟨none, some "", some "id0"⟩ }).jar =
      [⟨"__ddgid_", "id0", "https://*.bunkrr.su"⟩] ∧
    set_cookies (set_cookies { config := ⟨none, some "", some "id0"⟩ }) =
      set_cookies { config := ⟨none, some "", some "id0"⟩ } := by
  constructor
  · have h := (set_cookies_spec { config := ⟨none, some "", some "id0"⟩ }).2.2.2 rfl
    rw [h]
    decide
  · exact (set_cookies_spec { config := ⟨none, some "", some "id0"⟩ }).2.2.1

theorem add_to_parent_title_frame (s : ScrapeItem) (t : String) :
    (s.add_to_parent_title t).url = s.url ∧
    (s.add_to_parent_title t).part_of_album = s.part_of_album ∧
    (s.add_to_parent_title t).possible_datetime = s.possible_datetime ∧
    (s.add_to_parent_title t).retry = s.retry ∧
    (s.add_to_parent_title t).retry_path = s.retry_path := by
  unfold ScrapeItem.add_to_parent_title
  split <;> simp

theorem add_to_parent_title_url_irrel (s : ScrapeItem) (u : URL) (t : String) :
    (ScrapeItem.add_to_parent_title { s with url := u } t).parent_title =
      (s.add_to_parent_title t).parent_title := by
  by_cases h : t = "" ∨ s.retry <;> simp [ScrapeItem.add_to_parent_title, h]

theorem video_item_eq (s : ScrapeItem) (env : Env) : (video s env).item = s := by
  cases h1 : env.videoLinks.getLast? with
  | none => simp [video, h1]
  | some href =>
    cases h2 : env.fne (parseURL href).name with
    | ok fe =>
      obtain ⟨f, e⟩ := fe
      simp [video, h1, h2]
    | error er =>
      cases er with
      | NoExtensionFailure =>
        cases h3 : env.fne s.url.name with
        | ok fe =>
          obtain ⟨f, e⟩ := fe
          simp [video, h1, h2, h3]
        | error e2 => simp [video, h1, h2, h3]
      | TypeError => simp [video, h1, h2]
      | IndexError => simp [video, h1, h2]
      | ValueError => simp [video, h1, h2]
      | AttributeError => simp [video, h1, h2]

theorem other_item_eq (s : ScrapeItem) (env : Env) : (other s env).item = s := by
  cases h1 : env.otherLinks.getLast? with
  | none => simp [other, h1]
  | some href =>
    cases h2 : env.fne (parseURL href).name with
    | ok fe =>
      obtain ⟨f, e⟩ := fe
      simp [other, h1, h2]
    | error er =>
      cases er with
      | NoExtensionFailure =>
        cases h3 : env.fne s.url.name with
        | ok fe =>
          obtain ⟨f, e⟩ := fe
          simp [other, h1, h2, h3]
        | error e2 => simp [other, h1, h2, h3]
      | TypeError => simp [other, h1, h2]
      | IndexError => simp [other, h1, h2]
      | ValueError => simp [other, h1, h2]
      | AttributeError => simp [other, h1, h2]

theorem album_frame (s : ScrapeItem) (page : AlbumPage) :
    (album s page).item.url = s.url ∧
    (album s page).item.part_of_album = s.part_of_album ∧
    (album s page).item.possible_datetime = s.possible_datetime ∧
    (album s page).item.retry = s.retry ∧
    (album s page).item.retry_path = s.retry_path ∧
    (∃ t, (album s page).item.parent_title = (s.add_to_parent_title t).parent_title) := by
  unfold album
  cases h : s.url.parts.get? 2 with
  | none =>
    refine ⟨rfl, rfl, rfl, rfl, rfl, "", ?_⟩
    simp [ScrapeItem.add_to_parent_title]
  | some aid =>
    obtain ⟨h1, h2, h3, h4, h5⟩ :=
      add_to_parent_title_frame s (create_title page.titleText aid)
    exact ⟨h1, h2, h3, h4, h5, create_title page.titleText aid, rfl⟩

theorem wrapper_failed_url (r : HandlerResult) (u : URL) (e : PyErr)
    (h : (error_handling_wrapper r).failed = some (u, e)) :
    u = (error_handling_wrapper r).item.url := by
  cases ho : r.outcome with
  | ok v => simp [error_handling_wrapper, ho] at h
  | error er =>
    simp only [error_handling_wrapper, ho, Option.some.injEq, Prod.mk.injEq] at h ⊢
    exact h.1.symm

theorem get_stream_link_not_error (url : URL) (hst : String) (hh : url.host = some hst)
    (e : PyErr) : get_stream_link url ≠ .error e := by
  intro hc
  unfold get_stream_link at hc
  rw [hh] at hc
  by_cases h1 : matchCdnHost hst
  · by_cases h2 : lowerStr url.suffix = ""
    · simp [h1, h2] at hc
    · by_cases h3 : lowerStr url.suffix ∈ FILE_FORMATS_Images
      · simp [h1, h2, h3] at hc
      · by_cases h4 : lowerStr url.suffix ∈ FILE_FORMATS_Videos
        · simp [h1, h2, h3, h4] at hc
        · simp [h1, h2, h3, h4] at hc
  · simp [h1] at hc

theorem get_stream_link_ok_of_host (url : URL) (hst : String) (hh : url.host = some hst) :
    ∃ u, get_stream_link url = .ok u := by
  cases hgs : get_stream_link url with
  | ok u => exact ⟨u, rfl⟩
  | error e => exact absurd hgs (get_stream_link_not_error url hst hh e)

/-- Claim C1 counterexample: `fetch` does raise to its caller.  On an item
whose URL has no host, `get_stream_link` raises `TypeError` inside `fetch`,
before any handler (and its `error_handling_wrapper`) is reached, and the
exception propagates out of `fetch`; nothing is logged for the item. -/

theorem fetch_raises_on_hostless_url :
    (fetch st0 relItem env0).outcome = .error .TypeError ∧
    (fetch st0 relItem env0).failed = none := by
  constructor
  · decide
  · decide

/-- Claim C1 (amended): `fetch` is not itself wrapped, so an exception raised
before dispatch — e.g. `get_stream_link` on a host-less URL — propagates out
of `fetch`; but when the item's URL has a host, the pre-dispatch steps cannot
raise and every exception inside the `album`/`video`/`other` handlers is
caught by their `error_handling_wrapper`, so `fetch` returns normally, and
any logged failure carries the item's URL. -/

theorem fetch_no_raise_of_host (st : BunkrrState) (s : ScrapeItem) (env : Env)
    (hst : String) (hh : s.url.host = some hst) :
    (fetch st s env).outcome = .ok () ∧
    (∀ u e, (fetch st s env).failed = some (u, e) →
      u = (fetch st s env).item.url) := by
  obtain ⟨u, hu⟩ := get_stream_link_ok_of_host s.url hst hh
  constructor
  · simp only [fetch, hu]
  · intro v e hv
    by_cases ha : "a" ∈ u.parts
    · simp only [fetch, hu, ha, if_true] at hv ⊢
      exact wrapper_failed_url _ v e hv
    · by_cases hvp : "v" ∈ u.parts
      · simp [fetch, hu, ha, hvp] at hv ⊢
        exact wrapper_failed_url _ v e hv
      · simp [fetch, hu, ha, hvp] at hv ⊢
        exact wrapper_failed_url _ v e hv

/-- Claim C1 witness: on an item with a host whose video page has no anchors
(the handler raises `IndexError` internally), `fetch` still returns
normally; the wrapper logged the failure with the item's URL. -/

theorem fetch_no_raise_of_host_witness :
    (fetch st0 okItem env0).outcome = .ok () := by
  exact (fetch_no_raise_of_host st0 okItem env0 "bunkrr.su" (by decide)).1

/-- Claim C2 counterexample: progress-tracker calls are not balanced on every
exit path.  On an item whose URL has no host, `add_task` has run once but
`fetch` raises out of `get_stream_link` before `remove_task`. -/

theorem fetch_unbalanced_progress_on_raise :
    (fetch st0 relItem env0).added = 1 ∧ (fetch st0 relItem env0).removed = 0 := by
  constructor
  · decide
  · decide

/-- Claim C2 (amended): `add_task` runs exactly once at entry; `remove_task`
runs exactly once on every exit path on which the pre-dispatch steps succeed
(in particular whenever the item's URL has a host: handler exceptions are
swallowed by the wrapper, so dispatch always completes).  There is no
try/finally, so on the path where `get_stream_link` raises, `fetch` exits
with the task still registered. -/

theorem fetch_progress_balanced_of_host (st : BunkrrState) (s : ScrapeItem)
    (env : Env) (hst : String) (hh : s.url.host = some hst) :
    (fetch st s env).added = 1 ∧ (fetch st s env).removed = 1 := by
  obtain ⟨u, hu⟩ := get_stream_link_ok_of_host s.url hst hh
  constructor <;> simp only [fetch, hu]

/-- Claim C2 witness: the balanced case at a concrete item with a host. -/

theorem fetch_progress_balanced_of_host_witness :
    (fetch st0 okItem env0).added = 1 ∧ (fetch st0 okItem env0).removed = 1 :=
  fetch_progress_balanced_of_host st0 okItem env0 "bunkrr.su" (by decide)

/-- Claim C9: `fetch` mutates the item in place: when `get_stream_link`
succeeds, the caller-visible item's `url` is the stream link (so it may
differ from the enqueued URL); `part_of_album`, `possible_datetime`, `retry`
and `retry_path` are never modified by `fetch` or any handler; and
`parent_title` changes only when the album handler runs, and then only
through `add_to_parent_title`. -/

theorem fetch_frame (st : BunkrrState) (s : ScrapeItem) (env : Env) :
    (fetch st s env).item.part_of_album = s.part_of_album ∧
    (fetch st s env).item.possible_datetime = s.possible_datetime ∧
    (fetch st s env).item.retry = s.retry ∧
    (fetch st s env).item.retry_path = s.retry_path ∧
    (∀ u, get_stream_link s.url = .ok u →
      (fetch st s env).item.url = u ∧
      ("a" ∉ u.parts → (fetch st s env).item.parent_title = s.parent_title) ∧
      ("a" ∈ u.parts → ∃ t,
        (fetch st s env).item.parent_title = (s.add_to_parent_title t).parent_title)) := by
  cases hgs : get_stream_link s.url with
  | error e =>
    refine ⟨?_, ?_, ?_, ?_, ?_⟩ <;> simp [fetch, hgs]
  | ok u =>
    by_cases ha : "a" ∈ u.parts
    · have hf : (fetch st s env).item =
          (error_handling_wrapper (album { s with url := u } env.albumPage)).item := by
        simp [fetch, hgs, ha]
      have hw : (error_handling_wrapper (album { s with url := u } env.albumPage)).item =
          (album { s with url := u } env.albumPage).item := by
        unfold error_handling_wrapper
        split <;> rfl
      obtain ⟨a1, a2, a3, a4, a5, t, a6⟩ := album_frame { s with url := u } env.albumPage
      rw [hf, hw]
      refine ⟨a2, a3, a4, a5, ?_⟩
      intro v hv
      obtain rfl : u = v := Except.ok.inj hv
      refine ⟨a1, fun hna => absurd ha hna, fun _ => ⟨t, ?_⟩⟩
      rw [a6, add_to_parent_title_url_irrel]
    · have hf : (fetch st s env).item =
          (if "v" ∈ u.parts then error_handling_wrapper (video { s with url := u } env)
           else error_handling_wrapper (other { s with url := u } env)).item := by
        simp [fetch, hgs, ha]
      have hw : (if "v" ∈ u.parts then error_handling_wrapper (video { s with url := u } env)
          else error_handling_wrapper (other { s with url := u } env)).item =
          { s with url := u } := by
        by_cases hv : "v" ∈ u.parts
        · rw [if_pos hv]
          have : (error_handling_wrapper (video { s with url := u } env)).item =
              (video { s with url := u } env).item := by
            unfold error_handling_wrapper
            split <;> rfl
          rw [this, video_item_eq]
        · rw [if_neg hv]
          have : (error_handling_wrapper (other { s with url := u } env)).item =
              (other { s with url := u } env).item := by
            unfold error_handling_wrapper
            split <;> rfl
          rw [this, other_item_eq]
      rw [hf, hw]
      refine ⟨rfl, rfl, rfl, rfl, ?_⟩
      intro v hv
      obtain rfl : u = v := Except.ok.inj hv
      exact ⟨rfl, fun _ => rfl, fun hax => absurd hax ha⟩

/-- Claim C9 witness: a concrete video-page item: the item's URL is rewritten
to the stream link and the other fields survive `fetch` unchanged. -/

theorem fetch_frame_witness :
    (fetch st0 frameItemW env0).item.url = parseURL "https://bunkrr.su/v/clip.mp4" ∧
    (fetch st0 frameItemW env0).item.parent_title = "T" ∧
    (fetch st0 frameItemW env0).item.possible_datetime = some 7 := by
  have h := fetch_frame st0 frameItemW env0
  have h5 := h.2.2.2.2 (parseURL "https://bunkrr.su/v/clip.mp4") (by decide)
  exact ⟨h5.1, h5.2.1 (by decide), h.2.1⟩

theorem albumLoop_ok (host : Option String) (pt : String) (es : List AlbumEntry)
    (h : ∀ e ∈ es, (parse_datetime e.dateText).isSome = true ∧
      exOk (resolveHref host e.href) = true) :
    albumLoop host pt es = (es.map (entryChild host pt), .ok ()) := by
  induction es with
  | nil => rfl
  | cons e rest ih =>
    obtain ⟨⟨hd, hr⟩, hrest⟩ :
        ((parse_datetime e.dateText).isSome = true ∧ exOk (resolveHref host e.href) = true) ∧
          ∀ x ∈ rest, (parse_datetime x.dateText).isSome = true ∧
            exOk (resolveHref host x.href) = true := by
      constructor
      · exact h e (List.mem_cons_self e rest)
      · exact fun x hx => h x (List.mem_cons_of_mem e hx)
    obtain ⟨d, hd'⟩ := Option.isSome_iff_exists.mp hd
    have hu : ∃ u, resolveHref host e.href = .ok u := by
      cases hru : resolveHref host e.href with
      | ok u => exact ⟨u, rfl⟩
      | error er => rw [hru] at hr; exact absurd hr (by simp [exOk])
    obtain ⟨u, hu'⟩ := hu
    simp only [albumLoop, hd', hu', ih hrest, List.map_cons]
    simp [entryChild, hu', hd']

/-- Claim C5: on an album page with N listing entries, when every entry's
date parses and link resolves, `album` enqueues exactly N new ScrapeItems —
one per entry, in order — each flagged `part_of_album = true`, each with
`parent_title` equal to the input item's `parent_title` merged (via
`add_to_parent_title`, hence sanitized) with the album title, each carrying
the entry's resolved stream link and parsed epoch timestamp; and it hands no
file to the download dispatcher (no MediaItem). -/

theorem album_spec (s : ScrapeItem) (page : AlbumPage) (aid : String)
    (haid : s.url.parts.get? 2 = some aid)
    (hok : ∀ e ∈ page.entries, (parse_datetime e.dateText).isSome = true ∧
      exOk (resolveHref s.url.host e.href) = true) :
    (album s page).outcome = .ok () ∧
    (album s page).queued = page.entries.map (entryChild s.url.host
      (s.add_to_parent_title (create_title page.titleText aid)).parent_title) ∧
    (album s page).queued.length = page.entries.length ∧
    (∀ c ∈ (album s page).queued, c.part_of_album = true ∧
      c.parent_title =
        (s.add_to_parent_title (create_title page.titleText aid)).parent_title ∧
      c.possible_datetime.isSome = true) ∧
    (album s page).handled = [] := by
  have hurl : (s.add_to_parent_title (create_title page.titleText aid)).url = s.url :=
    (add_to_parent_title_frame s (create_title page.titleText aid)).1
  have hload := albumLoop_ok s.url.host
    (s.add_to_parent_title (create_title page.titleText aid)).parent_title
    page.entries hok
  have halbum : album s page =
      ⟨s.add_to_parent_title (create_title page.titleText aid),
        page.entries.map (entryChild s.url.host
          (s.add_to_parent_title (create_title page.titleText aid)).parent_title),
        [], .ok ()⟩ := by
    simp only [album, haid, hurl, hload]
  refine ⟨by rw [halbum], by rw [halbum], ?_, ?_, by rw [halbum]⟩
  · rw [halbum]
    exact List.length_map _ _
  · rw [halbum]
    intro c hc
    simp only [List.mem_map] at hc
    obtain ⟨e, he, rfl⟩ := hc
    refine ⟨rfl, rfl, ?_⟩
    exact (hok e he).1

/-- Claim C5 witness: the stub album page yields exactly 3 queued items, all
`part_of_album`, all under the merged title, and no file hand-off. -/

theorem album_spec_witness :
    (album albumItemW albumPageW).outcome = .ok () ∧
    (album albumItemW albumPageW).queued.length = 3 ∧
    (∀ c ∈ (album albumItemW albumPageW).queued,
      c.part_of_album = true ∧ c.parent_title = "Root/My Album") ∧
    (album albumItemW albumPageW).handled = [] := by
  have h := album_spec albumItemW albumPageW "album1" (by decide) (by decide)
  refine ⟨h.1, ?_, ?_, h.2.2.2.2⟩
  · rw [h.2.2.1]
    decide
  · intro c hc
    have hcc := h.2.2.2.1 c hc
    refine ⟨hcc.1, ?_⟩
    rw [hcc.2.1]
    decide

/-- Claim C8: in both `video` and `other`, when deriving filename and
extension from the direct link's final path segment raises
`NoExtensionFailure`, they are derived instead from the page URL's final
path segment and the file is still handed to `handle_file`; the `except`
clause catches `NoExtensionFailure` and no other exception kind — any other
error from the first attempt leaves the handler with that error and no
hand-off. -/

theorem noext_fallback_spec (s : ScrapeItem) (env : Env) :
    (∀ vh f e, env.videoLinks.getLast? = some vh →
      env.fne (parseURL vh).name = .error .NoExtensionFailure →
      env.fne s.url.name = .ok (f, e) →
      (video s env).outcome = .ok () ∧
      (video s env).handled = [⟨parseURL vh, s, f, e⟩]) ∧
    (∀ vh er, env.videoLinks.getLast? = some vh → er ≠ PyErr.NoExtensionFailure →
      env.fne (parseURL vh).name = .error er →
      (video s env).outcome = .error er ∧ (video s env).handled = []) ∧
    (∀ oh f e, env.otherLinks.getLast? = some oh →
      env.fne (parseURL oh).name = .error .NoExtensionFailure →
      env.fne s.url.name = .ok (f, e) →
      (other s env).outcome = .ok () ∧
      (other s env).handled = [⟨parseURL oh, s, f, e⟩]) ∧
    (∀ oh er, env.otherLinks.getLast? = some oh → er ≠ PyErr.NoExtensionFailure →
      env.fne (parseURL oh).name = .error er →
      (other s env).outcome = .error er ∧ (other s env).handled = []) := by
  refine ⟨?_, ?_, ?_, ?_⟩
  · intro vh f e h1 h2 h3
    constructor <;> simp [video, h1, h2, h3]
  · intro vh er h1 hne h2
    cases er with
    | NoExtensionFailure => exact absurd rfl hne
    | TypeError => constructor <;> simp [video, h1, h2]
    | IndexError => constructor <;> simp [video, h1, h2]
    | ValueError => constructor <;> simp [video, h1, h2]
    | AttributeError => constructor <;> simp [video, h1, h2]
  · intro oh f e h1 h2 h3
    constructor <;> simp [other, h1, h2, h3]
  · intro oh er h1 hne h2
    cases er with
    | NoExtensionFailure => exact absurd rfl hne
    | TypeError => constructor <;> simp [other, h1, h2]
    | IndexError => constructor <;> simp [other, h1, h2]
    | ValueError => constructor <;> simp [other, h1, h2]
    | AttributeError => constructor <;> simp [other, h1, h2]

/-- Claim C8 witness: `get_filename_and_ext` on the link name "clip" raises
`NoExtensionFailure`; the pair is taken from the page URL name "clip.mp4"
and `handle_file` still runs; a `TypeError` from the first attempt is not
caught. -/

theorem noext_fallback_spec_witness :
    (video fallbackItemW fallbackEnvW).outcome = .ok () ∧
    (video fallbackItemW fallbackEnvW).handled =
      [⟨parseURL "https://bunkrr.su/v/clip", fallbackItemW, "clip.mp4", ".mp4"⟩] ∧
    (other fallbackItemW errEnvW).outcome = .error .TypeError ∧
    (other fallbackItemW errEnvW).handled = [] := by
  have h1 := (noext_fallback_spec fallbackItemW fallbackEnvW).1
    "https://bunkrr.su/v/clip" "clip.mp4" ".mp4" (by decide) (by decide) (by decide)
  have h2 := (noext_fallback_spec fallbackItemW errEnvW).2.2.2
    "https://bunkrr.su/d/file" PyErr.TypeError (by decide) (by decide) (by decide)
  exact ⟨h1.1, h1.2, h2.1, h2.2⟩
